import Mathlib

/-!
Shallow embedding of the TechTrain-NLP notebooks.

Sources embedded here:
* `2a_Masked_Language_Modeling.ipynb` — the `predict_word` function and the
  model-loading cell with its bare try/except around moving the model to CUDA.
* `2b_Next_Sentence_Prediction.ipynb` — the `predict_nsp` function.
* `2c_Fine_Tuning_Sentence_Classification.ipynb` — `compute_metrics`,
  `training_args` and the baseline `trainer.evaluate()` call.
* the unnamed tokenization-comparison notebook — `vectorize_and_train`.

External library calls (BERT model forward pass, sklearn vectorizer/classifier,
the HuggingFace trainer, numpy argmax, the accuracy metric) are represented as
parameters or, where a claim depends on their contract, modelled from the spec
with a doc comment saying so.  Floating point is replaced by exact rational
arithmetic; the exponential inside torch.softmax is a parameter assumed
positive, the one property of exp that the code relies on.
-/

namespace TechTrainNLP

/-- Python exception kinds that the embedded notebook code can raise. -/
inductive PyError where
  | assertionError
  | nameError
  | typeError
  | runtimeError
  deriving DecidableEq, Repr

/-! ## Python string semantics used by predict_word

Python `str.lstrip(chars)` / `str.rstrip(chars)` treat the argument as a SET of
characters, not as a literal prefix/suffix string. -/

/-- Membership of a character in the character set given by a Python strip argument. -/
def charIn (c : Char) (chars : String) : Bool :=
  chars.toList.contains c

/-- Python `text.lstrip(chars)`: drop leading characters belonging to the set `chars`. -/
def pyLstrip (s chars : String) : String :=
  (s.toList.dropWhile (fun c => charIn c chars)).asString

/-- Python `text.rstrip(chars)`: drop trailing characters belonging to the set `chars`. -/
def pyRstrip (s chars : String) : String :=
  (s.toList.reverse.dropWhile (fun c => charIn c chars)).reverse.asString

/-- Line of `predict_word`:
`text = '[CLS] ' + text.lstrip('[CLS] ').rstrip(' [SEP]') + ' [SEP]'`. -/
def prepareText (text : String) : String :=
  "[CLS] " ++ pyRstrip (pyLstrip text "[CLS] ") " [SEP]" ++ " [SEP]"

/-! ## The mask-scanning loop of predict_word

```
masked_index = -1
for i, token in enumerate(tokenized_text):
  if token=='[MASK]':
    masked_index = i
    break
assert i>=0
```

`maskLoop toks start` returns the pair
(final binding of the loop variable `i`, if the loop body ever ran; final value
of `masked_index`).  In Python, if `tokenized_text` is empty the name `i` is
never bound, which the first component records as `none`; the subsequent
`assert i>=0` then raises `NameError` rather than `AssertionError`. -/
def maskLoop : List String → ℤ → Option ℤ × ℤ
  | [], _ => (none, -1)
  | t :: rest, start =>
    if t = "[MASK]" then
      (some start, start)
    else
      match maskLoop rest (start + 1) with
      | (none, m) => (some start, m)
      | (some i, m) => (some i, m)

/-- The value bound to `masked_index` after the scanning loop of `predict_word`
(it stays `-1` when no mask token occurs). -/
def maskedIndexOf (toks : List String) : ℤ :=
  (maskLoop toks 0).2

/-- Index of the first occurrence of the mask token in a token list
(equal to the length when no mask occurs). -/
def firstMaskIdx : List String → ℕ
  | [] => 0
  | t :: rest => if t = "[MASK]" then 0 else firstMaskIdx rest + 1

/-- Embedding of `predict_word(text, model, tokenizer, topn=10)` from
`2a_Masked_Language_Modeling.ipynb`.

The tokenizer is the external parameter `tokenize`.  After preparing the text
and scanning for the mask token, the source executes `assert i>=0` on the loop
variable `i`; it then computes `predicted_inds`, `predicted_probs` and
`predicted_tokens` from the model logits at `masked_index`, binds them to local
variables, and falls through `pass`, so its Python return value is `None` and
the model/`topn` arguments never influence the returned value.  The embedding
therefore returns `Except.ok none` on every run in which the assert passes. -/
def predict_word (tokenize : String → List String) (text : String) (topn : ℕ) :
    Except PyError (Option (List (String × ℚ))) :=
  let text1 := prepareText text
  let tokenized_text := tokenize text1
  match maskLoop tokenized_text 0 with
  | (none, _masked_index) =>
    -- the loop never ran: the name i is unbound, `assert i>=0` raises NameError
    Except.error PyError.nameError
  | (some i, _masked_index) =>
    if 0 ≤ i then
      -- ranking of the full vocabulary is computed here in the source and
      -- discarded; the function body ends in `pass`, returning None
      Except.ok (none : Option (List (String × ℚ)))
    else Except.error PyError.assertionError

/-! ## The model-loading cell of the masked-LM notebook

```
try:
    model = model.to('cuda')
except:
    pass
```
-/

/-- Embedding of the model-loading cell of `2a_Masked_Language_Modeling.ipynb`.
The external library call `model.to('cuda')` is the parameter `toCuda`, which
either returns the moved model or raises.  The bare `except: pass` catches any
exception and keeps the original binding of `model`, so the cell itself never
propagates an exception: its outcome is always `Except.ok`. -/
def loadModelCell {Model : Type} (toCuda : Model → Except PyError Model)
    (model : Model) : Except PyError Model :=
  Except.ok (match toCuda model with
    | Except.ok m2 => m2
    | Except.error _ => model)

/-! ## Next sentence prediction (`2b_Next_Sentence_Prediction.ipynb`) -/

/-- First component of `torch.softmax` on a row of two logits.  The exponential
of the softmax is the parameter `e`, so that the embedding stays in exact
rational arithmetic; the positivity of `e`, which is the property of the real
exponential that the code relies on, is a hypothesis of the theorems below. -/
def softmaxFirst (e : ℚ → ℚ) (l0 l1 : ℚ) : ℚ :=
  e l0 / (e l0 + e l1)

/-- Modelled from the spec: the external library call
`tokenizer(sentence1, sentence2, ...)` is not part of this repository; per the
spec (sections 4.2 and 6) it concatenates the two tokenized sentences with a
separator in the format the model expects, here the BERT pair format
`[CLS] s1-tokens [SEP] s2-tokens [SEP]`. -/
def encodePair (tok : String → List String) (s1 s2 : String) : List String :=
  "[CLS]" :: (tok s1 ++ ["[SEP]"] ++ tok s2 ++ ["[SEP]"])

/-- Embedding of `predict_nsp(sentence1, sentence2, model, tokenizer)` from
`2b_Next_Sentence_Prediction.ipynb`.  The model forward pass is the external
parameter `modelLogits`, producing the two output logits; the function applies
`torch.softmax` along the class dimension and returns the first component. -/
def predict_nsp (e : ℚ → ℚ) (tok : String → List String)
    (modelLogits : List String → ℚ × ℚ) (s1 s2 : String) : ℚ :=
  let inputs := encodePair tok s1 s2
  let logits := modelLogits inputs
  softmaxFirst e logits.1 logits.2

/-! ## Fine-tuning notebook (`2c_Fine_Tuning_Sentence_Classification.ipynb`) -/

/-- Modelled from the spec: `np.argmax(row, axis=-1)` on one row — numpy is an
external library; it returns the index of the first maximal element of the row
(accumulator form, replacing the best index only on a strictly greater value). -/
def npArgmaxAux : List ℚ → ℕ → ℕ → ℚ → ℕ
  | [], _, best, _ => best
  | x :: xs, idx, best, bestVal =>
    if bestVal < x then npArgmaxAux xs (idx + 1) idx x
    else npArgmaxAux xs (idx + 1) best bestVal

/-- Modelled from the spec: index of the first maximal element of a logit row,
the semantics of the external call `np.argmax(logits, axis=-1)` applied rowwise. -/
def npArgmax : List ℚ → ℕ
  | [] => 0
  | x :: xs => npArgmaxAux xs 1 0 x

/-- Modelled from the spec: `metric.compute(predictions=..., references=...)` of
the accuracy metric loaded by `load_metric('accuracy')` — an external library
call; per the spec (sections 4.3 and 8) it is the deterministic fraction of
predictions exactly matching the ground-truth references. -/
def accuracyScore (preds refs : List ℕ) : ℚ :=
  (((preds.zip refs).countP (fun pr => pr.1 == pr.2) : ℚ)) / (refs.length : ℚ)

/-- Embedding of `compute_metrics(eval_pred)` from
`2c_Fine_Tuning_Sentence_Classification.ipynb`: convert the logit rows to
predicted labels with `np.argmax(logits, axis=-1)` and score them against the
ground-truth labels with the accuracy metric. -/
def compute_metrics (logits : List (List ℚ)) (labels : List ℕ) : ℚ :=
  let predictions := logits.map npArgmax
  accuracyScore predictions labels

/-- Embedding of the `TrainingArguments` fields set by the baseline-evaluation
cell of `2c_Fine_Tuning_Sentence_Classification.ipynb`. -/
structure TrainingArguments where
  output_dir : String
  per_device_eval_batch_size : ℕ
  do_train : Bool
  do_eval : Bool
  eval_strategy : String
  logging_steps : ℕ

/-- The `training_args` value of the baseline-evaluation section:
`TrainingArguments(output_dir='./results', per_device_eval_batch_size=64,
do_train=False, do_eval=True, eval_strategy='no', logging_steps=10)`. -/
def training_args : TrainingArguments :=
  { output_dir := "./results"
  , per_device_eval_batch_size := 64
  , do_train := false
  , do_eval := true
  , eval_strategy := "no"
  , logging_steps := 10 }

/-- Modelled from the spec: the external generic training-loop abstraction
(spec section 6) holds a model, the configuration and an eval dataset together
with the metrics callback; `W` is the type of model weights, `D` the dataset
type and `M` the metrics type. -/
structure Trainer (W D M : Type) where
  model : W
  args : TrainingArguments
  evalDataset : D
  computeMetrics : W → D → M

/-- Modelled from the spec: `trainer.evaluate()` of the external training-loop
abstraction runs a forward pass over the eval dataset and computes the metrics
from the current weights; per the spec (sections 6 and 8) evaluation performs
no gradient-based optimization, so the trainer — in particular its model
weights — is returned unchanged. -/
def Trainer.evaluate {W D M : Type} (t : Trainer W D M) : M × Trainer W D M :=
  (t.computeMetrics t.model t.evalDataset, t)

/-! ## Tokenization-comparison notebook (`vectorize_and_train`) -/

/-- Embedding of `vectorize_and_train(X_train, X_test, y_train, y_test,
tokenizer, tokenizer_name)` from the tokenization-comparison notebook.

The sklearn work — `CountVectorizer(analyzer=...)`, `fit_transform` /
`transform`, the `MultinomialNB` fit/predict and the accuracy/F1 scores — is
entirely delegated and is the external parameter `pipeline`, taking the
analyzer setting and the documents handed to the vectorizer.  The notebook
code itself only branches on `tokenizer_name`:
* in the `'Character-Level'` branch the raw documents are vectorized with
  `analyzer='char'` and the `tokenizer` argument is never used;
* in every other branch each document is lowercased, tokenized and re-joined
  with spaces before vectorization; calling the tokenizer when it is `None`
  raises a `TypeError`. -/
def vectorize_and_train
    (pipeline : String → List String → List String → List ℕ → List ℕ → ℚ × ℚ)
    (XTrain XTest : List String) (yTrain yTest : List ℕ)
    (tokenizer : Option (String → List String)) (tokenizerName : String) :
    Except PyError (ℚ × ℚ) :=
  if tokenizerName = "Character-Level" then
    Except.ok (pipeline "char" XTrain XTest yTrain yTest)
  else
    match tokenizer with
    | none => Except.error PyError.typeError
    | some tok =>
      let XTrainTokens := XTrain.map (fun text => " ".intercalate (tok text.toLower))
      let XTestTokens := XTest.map (fun text => " ".intercalate (tok text.toLower))
      Except.ok (pipeline "word" XTrainTokens XTestTokens yTrain yTest)

/-! ## Auxiliary spec-side predicates -/

/-- The string `s` literally begins with the string `p`. -/
def strBeginsWith (s p : String) : Bool :=
  s.toList.take p.toList.length == p.toList

/-- The string `s` literally ends with the string `p`. -/
def strEndsWith (s p : String) : Bool :=
  s.toList.reverse.take p.toList.length == p.toList.reverse

/-! # Helper lemmas about the mask-scanning loop -/

/-- If the token list is nonempty the loop body runs at least once: the loop
variable ends up bound to some index at least the starting one, so the
subsequent `assert i>=0` never raises when scanning starts at 0. -/
theorem maskLoop_run (toks : List String) (s : ℤ) (h : toks ≠ []) :
    ∃ i m, maskLoop toks s = (some i, m) ∧ s ≤ i := by
  induction toks generalizing s with
  | nil => exact absurd rfl h
  | cons t rest ih =>
    by_cases ht : t = "[MASK]"
    · exact ⟨s, s, by simp [maskLoop, ht], le_refl s⟩
    · by_cases hr : rest = []
      · refine ⟨s, -1, ?_, le_refl s⟩
        subst hr
        simp [maskLoop, ht]
      · obtain ⟨i, m, him, hsi⟩ := ih (s + 1) hr
        refine ⟨i, m, ?_, by linarith⟩
        simp [maskLoop, ht, him]

/-- In the non-mask step the final `masked_index` is whatever the rest of the
scan produces. -/
theorem maskLoop_cons_snd (t : String) (rest : List String) (s : ℤ)
    (ht : ¬ t = "[MASK]") :
    (maskLoop (t :: rest) s).2 = (maskLoop rest (s + 1)).2 := by
  rcases hm : maskLoop rest (s + 1) with ⟨o, m⟩
  cases o <;> simp [maskLoop, ht, hm]

/-- When a mask token occurs, the scan binds `masked_index` to the position of
the FIRST occurrence (offset by the starting index). -/
theorem maskLoop_snd_of_mem (toks : List String) (s : ℤ) (h : "[MASK]" ∈ toks) :
    (maskLoop toks s).2 = s + firstMaskIdx toks := by
  induction toks generalizing s with
  | nil => cases h
  | cons t rest ih =>
    by_cases ht : t = "[MASK]"
    · simp [maskLoop, ht, firstMaskIdx]
    · have hmem : "[MASK]" ∈ rest := by
        rcases List.mem_cons.mp h with heq | hmem
        · exact absurd heq.symm ht
        · exact hmem
      rw [maskLoop_cons_snd t rest s ht, ih (s + 1) hmem, firstMaskIdx]
      simp [ht]
      ring

/-! # Claim theorems -/

/-- C1: the claim states that the assertion in `predict_word` crashes exactly
when no `[MASK]` token is present in the tokenized input.  The code instead
asserts `i>=0` on the loop counter, which holds for every nonempty tokenized
input: evaluating the embedded `predict_word` on an input whose tokenized form
contains no mask token shows the call completing normally (no
`AssertionError`), contradicting the claim. -/
theorem C1_assert_passes_without_mask :
    ("[MASK]" ∉ ["[CLS]", "the", "boy", "went", "to", "school", "[SEP]"]) ∧
    predict_word (fun _ => ["[CLS]", "the", "boy", "went", "to", "school", "[SEP]"])
      "The boy went to school" 10 = Except.ok none :=
  ⟨by decide, rfl⟩

/-- C2: the claim states that `predict_word` returns a list of length `topn`
sorted by descending probability.  The function body ends in `pass`, so it
returns Python `None`: evaluated on a sentence with exactly one mask
placeholder and `topn = 10`, the embedded `predict_word` yields `none` and in
particular no list of pairs at all. -/
theorem C2_predict_word_returns_none :
    predict_word (fun _ => ["[CLS]", "the", "boy", "[MASK]", "to", "the", "school", "[SEP]"])
      "The boy [MASK] to the school" 10 = Except.ok none ∧
    ∀ l : List (String × ℚ),
      predict_word (fun _ => ["[CLS]", "the", "boy", "[MASK]", "to", "the", "school", "[SEP]"])
        "The boy [MASK] to the school" 10 ≠ Except.ok (some l) := by
  constructor
  · rfl
  · intro l hl
    have h0 : predict_word (fun _ => ["[CLS]", "the", "boy", "[MASK]", "to", "the", "school", "[SEP]"])
        "The boy [MASK] to the school" 10 = Except.ok none := rfl
    have hcontra : (Except.ok none : Except PyError (Option (List (String × ℚ)))) =
        Except.ok (some l) := h0.symm.trans hl
    simp at hcontra

/-- C3 counterexample: the claim states that `predict_word` fails on every
input containing more than one mask placeholder.  On a tokenized input with
two `[MASK]` tokens the embedded call completes normally (returning `None`)
and `masked_index` is bound to the position of the first mask, so the input is
not rejected. -/
theorem C3_two_masks_not_rejected :
    (["[CLS]", "[MASK]", "is", "[MASK]", "[SEP]"].count "[MASK]" = 2) ∧
    predict_word (fun _ => ["[CLS]", "[MASK]", "is", "[MASK]", "[SEP]"])
      "[MASK] is [MASK]" 10 = Except.ok none ∧
    maskedIndexOf ["[CLS]", "[MASK]", "is", "[MASK]", "[SEP]"] = 1 :=
  ⟨by decide, rfl, by decide⟩

/-- C3 amended: `predict_word` does not reject inputs with more than one mask
placeholder.  Whenever the tokenized input contains a `[MASK]` token — in
particular when it contains several — the call completes normally (Python
return value `None`) and `masked_index` is bound to the index of the first
`[MASK]` token, which the prediction then silently uses. -/
theorem C3_first_mask_used (tokenize : String → List String) (text : String) (topn : ℕ)
    (h : "[MASK]" ∈ tokenize (prepareText text)) :
    predict_word tokenize text topn = Except.ok none ∧
    maskedIndexOf (tokenize (prepareText text)) =
      (firstMaskIdx (tokenize (prepareText text)) : ℤ) := by
  have hne : tokenize (prepareText text) ≠ [] := by
    intro he
    rw [he] at h
    cases h
  obtain ⟨i, m, him, hsi⟩ := maskLoop_run (tokenize (prepareText text)) 0 hne
  constructor
  · simp only [predict_word]
    rw [him]
    exact if_pos hsi
  · unfold maskedIndexOf
    rw [maskLoop_snd_of_mem (tokenize (prepareText text)) 0 h]
    ring

/-- Witness for the amended C3 theorem at a concrete two-mask input. -/
theorem C3_first_mask_used_witness :
    ("[MASK]" ∈ ["[MASK]", "a", "[MASK]"]) ∧
    (predict_word (fun _ => ["[MASK]", "a", "[MASK]"]) "t" 10 = Except.ok none ∧
     maskedIndexOf ["[MASK]", "a", "[MASK]"] = (firstMaskIdx ["[MASK]", "a", "[MASK]"] : ℤ)) :=
  ⟨by decide, C3_first_mask_used (fun _ => ["[MASK]", "a", "[MASK]"]) "t" 10 (by decide)⟩

/-- C4: `predict_nsp` applies the softmax normalization to the two output
logits of the model and returns the first component; for every admissible
exponential (positive, as the real exponential is), every tokenizer, every
model and every pair of sentences the returned value lies in `[0, 1]`. -/
theorem C4_nsp_probability_in_unit_interval (e : ℚ → ℚ) (tok : String → List String)
    (modelLogits : List String → ℚ × ℚ) (s1 s2 : String) (he : ∀ x, 0 < e x) :
    0 ≤ predict_nsp e tok modelLogits s1 s2 ∧ predict_nsp e tok modelLogits s1 s2 ≤ 1 := by
  have hA := he (modelLogits (encodePair tok s1 s2)).1
  have hB := he (modelLogits (encodePair tok s1 s2)).2
  simp only [predict_nsp, softmaxFirst]
  constructor
  · exact div_nonneg hA.le (by linarith)
  · rw [div_le_one (by linarith)]
    linarith

/-- Witness for the C4 theorem at a concrete exponential, tokenizer, model and
sentence pair. -/
theorem C4_nsp_probability_in_unit_interval_witness :
    (∀ x : ℚ, 0 < (fun _ : ℚ => (1 : ℚ)) x) ∧
    (0 ≤ predict_nsp (fun _ => 1) (fun s => [s]) (fun _ => (0, 0)) "a" "b" ∧
     predict_nsp (fun _ => 1) (fun s => [s]) (fun _ => (0, 0)) "a" "b" ≤ 1) :=
  ⟨fun _ => one_pos,
   C4_nsp_probability_in_unit_interval (fun _ => 1) (fun s => [s]) (fun _ => (0, 0)) "a" "b"
     (fun _ => one_pos)⟩

/-- C5: the baseline evaluation of the pre-trained model — `trainer.evaluate()`
on the trainer built with `training_args` (`do_train=False`) — leaves the model
weights unchanged, and running it twice in a row yields the identical metric
value both times.  Modelled from the spec: the trainer is the external
training-loop abstraction of spec section 6, whose evaluation performs no
optimization step. -/
theorem C5_baseline_evaluation_frame (W D M : Type) (w : W) (d : D) (f : W → D → M) :
    ((Trainer.mk w training_args d f).evaluate.2.model = w) ∧
    ((Trainer.mk w training_args d f).evaluate.2.evaluate.1 =
      (Trainer.mk w training_args d f).evaluate.1) :=
  ⟨rfl, rfl⟩

/-- C6: `compute_metrics` converts the logit rows to predicted labels via the
rowwise argmax and scores accuracy as the fraction of predictions exactly
matching the ground-truth labels; on every nonempty input of matching lengths
the result equals that fraction and lies in `[0, 1]` (and, being a function of
its arguments, it is deterministic). -/
theorem C6_compute_metrics_accuracy (logits : List (List ℚ)) (labels : List ℕ)
    (hlen : logits.length = labels.length) (hne : labels ≠ []) :
    compute_metrics logits labels =
      (((logits.map npArgmax).zip labels).countP (fun pr => pr.1 == pr.2) : ℚ) /
        (labels.length : ℚ) ∧
    0 ≤ compute_metrics logits labels ∧ compute_metrics logits labels ≤ 1 := by
  have hn : 0 < (labels.length : ℚ) := by
    have hpos : 0 < labels.length := List.length_pos.mpr hne
    exact_mod_cast hpos
  have hk : ((logits.map npArgmax).zip labels).countP (fun pr => pr.1 == pr.2) ≤
      labels.length := by
    calc ((logits.map npArgmax).zip labels).countP (fun pr => pr.1 == pr.2)
        ≤ ((logits.map npArgmax).zip labels).length := List.countP_le_length _
      _ = min (logits.map npArgmax).length labels.length := List.length_zip _ _
      _ ≤ labels.length := min_le_right _ _
  refine ⟨rfl, ?_, ?_⟩
  · exact div_nonneg (by positivity) hn.le
  · simp only [compute_metrics, accuracyScore]
    rw [div_le_one hn]
    exact_mod_cast hk

/-- Witness for the C6 theorem on concrete logit rows and labels. -/
theorem C6_compute_metrics_accuracy_witness :
    (([[(0 : ℚ), 1], [2, 0]] : List (List ℚ)).length = ([1, 1] : List ℕ).length ∧
      ([1, 1] : List ℕ) ≠ []) ∧
    (compute_metrics [[(0 : ℚ), 1], [2, 0]] [1, 1] =
      ((([[(0 : ℚ), 1], [2, 0]] : List (List ℚ)).map npArgmax).zip ([1, 1] : List ℕ)).countP
          (fun pr => pr.1 == pr.2) / ((([1, 1] : List ℕ).length : ℚ)) ∧
     0 ≤ compute_metrics [[(0 : ℚ), 1], [2, 0]] [1, 1] ∧
     compute_metrics [[(0 : ℚ), 1], [2, 0]] [1, 1] ≤ 1) :=
  ⟨⟨rfl, by decide⟩, C6_compute_metrics_accuracy [[(0 : ℚ), 1], [2, 0]] [1, 1] rfl (by decide)⟩

/-- C7 counterexample: the claim states that every exception raised by the
underlying libraries propagates to the caller unchanged.  The model-loading
cell of the masked-LM notebook wraps `model.to('cuda')` in a bare try/except:
when the move raises, the cell completes normally with the original model, so
the exception does not propagate. -/
theorem C7_cuda_exception_swallowed :
    loadModelCell (fun _ : ℕ => Except.error PyError.runtimeError) 0 = Except.ok 0 ∧
    (Except.ok 0 : Except PyError ℕ) ≠ Except.error PyError.runtimeError :=
  ⟨rfl, by simp⟩

/-- C7 amended: exceptions raised while moving the model to CUDA are silently
swallowed by the bare try/except of the model-loading cell, which then keeps
the original model; only the rest of the notebook code, which contains no
exception handler, lets library exceptions propagate unchanged. -/
theorem C7_cuda_cell_never_propagates (Model : Type)
    (toCuda : Model → Except PyError Model) (m : Model) (e : PyError)
    (h : toCuda m = Except.error e) :
    loadModelCell toCuda m = Except.ok m := by
  simp [loadModelCell, h]

/-- Witness for the amended C7 theorem at a concrete failing cuda move. -/
theorem C7_cuda_cell_never_propagates_witness :
    ((fun _ : ℕ => (Except.error PyError.runtimeError : Except PyError ℕ)) 1 =
      Except.error PyError.runtimeError) ∧
    loadModelCell (fun _ : ℕ => (Except.error PyError.runtimeError : Except PyError ℕ)) 1 =
      Except.ok 1 :=
  ⟨rfl,
   C7_cuda_cell_never_propagates ℕ
     (fun _ => (Except.error PyError.runtimeError : Except PyError ℕ)) 1
     PyError.runtimeError rfl⟩

/-- C8: the next-sentence relationship scorer is not symmetric.  The two
argument orders reach the model through different encoded inputs, and there is
an admissible exponential, a tokenizer, a model and a pair of sentences for
which swapping the two input sentences changes the returned probability. -/
theorem C8_predict_nsp_not_symmetric :
    ∃ (e : ℚ → ℚ) (tok : String → List String) (modelLogits : List String → ℚ × ℚ)
      (s1 s2 : String), (∀ x, 0 < e x) ∧
      predict_nsp e tok modelLogits s1 s2 ≠ predict_nsp e tok modelLogits s2 s1 := by
  refine ⟨fun x => if x ≤ 0 then 1 else x + 1, fun s => [s],
    fun l => if l = encodePair (fun s => [s]) "a" "b" then (1, 0) else (0, 0), "a", "b",
    ?_, ?_⟩
  · intro x
    show 0 < if x ≤ 0 then (1 : ℚ) else x + 1
    by_cases hx : x ≤ 0
    · rw [if_pos hx]
      norm_num
    · rw [if_neg hx]
      push_neg at hx
      linarith
  · have h1 : predict_nsp (fun x => if x ≤ 0 then 1 else x + 1) (fun s => [s])
        (fun l => if l = encodePair (fun s => [s]) "a" "b" then (1, 0) else (0, 0))
        "a" "b" = 2 / 3 := by
      norm_num [predict_nsp, softmaxFirst, encodePair]
    have hne : encodePair (fun s => [s]) "b" "a" ≠ encodePair (fun s => [s]) "a" "b" := by
      decide
    have h2 : predict_nsp (fun x => if x ≤ 0 then 1 else x + 1) (fun s => [s])
        (fun l => if l = encodePair (fun s => [s]) "a" "b" then (1, 0) else (0, 0))
        "b" "a" = 1 / 2 := by
      simp only [predict_nsp, softmaxFirst]
      rw [if_neg hne]
      norm_num
    rw [h1, h2]
    norm_num

/-- C9: the preprocessing line of `predict_word` uses Python character-set
stripping, not literal prefix/suffix removal: there is an input text that
neither begins with `[CLS]` nor ends with `[SEP]` whose prepared form is not
`'[CLS] ' + text + ' [SEP]'`, because leading characters of the sentence
itself are deleted. -/
theorem C9_strip_charset_not_literal :
    ∃ text : String, strBeginsWith text "[CLS]" = false ∧
      strEndsWith text "[SEP]" = false ∧
      prepareText text ≠ "[CLS] " ++ text ++ " [SEP]" :=
  ⟨"Sam [MASK] a dog", by decide, by decide, by decide⟩

/-- C10: in the `'Character-Level'` branch of `vectorize_and_train` the
`tokenizer` argument has no influence on the result — any two tokenizer
arguments, including `None`, give identical accuracy and F1 — and the raw
documents are handed to the vectorizer without being lowercased first, unlike
the word-level and BPE branches, which lowercase each document before
tokenizing and re-joining it. -/
theorem C10_char_level_ignores_tokenizer
    (pipeline : String → List String → List String → List ℕ → List ℕ → ℚ × ℚ)
    (XTrain XTest : List String) (yTrain yTest : List ℕ)
    (tok1 tok2 : Option (String → List String)) (f : String → List String) :
    vectorize_and_train pipeline XTrain XTest yTrain yTest tok1 "Character-Level" =
      vectorize_and_train pipeline XTrain XTest yTrain yTest tok2 "Character-Level" ∧
    vectorize_and_train pipeline XTrain XTest yTrain yTest tok1 "Character-Level" =
      Except.ok (pipeline "char" XTrain XTest yTrain yTest) ∧
    vectorize_and_train pipeline XTrain XTest yTrain yTest (some f) "Word-Level" =
      Except.ok (pipeline "word"
        (XTrain.map (fun text => " ".intercalate (f text.toLower)))
        (XTest.map (fun text => " ".intercalate (f text.toLower))) yTrain yTest) := by
  refine ⟨rfl, rfl, ?_⟩
  unfold vectorize_and_train
  rw [if_neg (by decide : ¬ ("Word-Level" = "Character-Level"))]

end TechTrainNLP
